import Mathlib

/-!
Shallow embedding of `src/pages/CustomerInformation.js` (a React CRUD screen
over two Firestore collections, `customers` and `customerLoans`).

Modelling conventions:
* A Firestore document field that may be absent is an `Option`.
* JS strings are Lean `String`s; `String.prototype.toLowerCase` is modelled by
  per-character ASCII lowercasing (`jsToLower`), `String.prototype.includes` by
  a substring test on character lists (`jsIncludes`), `String.prototype.trim`
  by dropping whitespace at both ends (`jsTrim`).
* The stored loan `amount` is modelled by the rational number that
  `parseFloat` would return on it, with `none` standing for `NaN`
  (a non-numeric amount); `parseFloat(x) || 0` is then `Option.getD · 0`.
* `Date` instants are abstract naturals.
* `Array.prototype.sort` (a stable sort by the given comparator) is modelled
  by insertion sort under the comparator's induced relation; `localeCompare`
  on lowercased names is modelled by lexicographic order on character lists.
* Each `catch` block is modelled by the effect it produces: whether it logs,
  and which banner error message (if any) it sets.
-/

namespace CustomerInfo

/-- A document of the `customers` collection, flattened with its id
(`{ id: doc.id, ...doc.data() }`). -/
structure Customer where
  id : String
  shopId : Option String
  name : Option String
  phone : Option String
  email : Option String
  address : Option String
  city : Option String
  notes : Option String
  createdAt : Option Nat
  updatedAt : Option Nat
deriving DecidableEq

/-- A document of the `customerLoans` collection, flattened with its id.
`amount` is the value `parseFloat` yields on the stored amount (`none` = NaN). -/
structure Loan where
  id : String
  shopId : Option String
  customerName : Option String
  amount : Option ℚ
  timestamp : Option Nat
  transactionId : Option String
  receiptId : Option String
  status : Option String
deriving DecidableEq

/-- The controlled form state (`formData`); every field is a string, possibly
empty. -/
structure FormData where
  name : String
  phone : String
  email : String
  address : String
  city : String
  notes : String
deriving DecidableEq

/-- The document written by `handleSubmit`
(`{ ...formData, shopId, createdAt, updatedAt }`). -/
structure CustomerData where
  name : String
  phone : String
  email : String
  address : String
  city : String
  notes : String
  shopId : String
  createdAt : Option Nat
  updatedAt : Nat
deriving DecidableEq

/-- JS truthiness of an optional string: `undefined`/`null` and `''` are falsy. -/
def strTruthy : Option String → Bool
  | none => false
  | some s => !(s == "")

/-- Per-character lowercasing, modelling `String.prototype.toLowerCase`. -/
def jsToLower (s : String) : String := String.mk (s.data.map Char.toLower)

/-- `listIsPfx p l` holds when `p` is a prefix of `l`. -/
def listIsPfx : List Char → List Char → Bool
  | [], _ => true
  | _ :: _, [] => false
  | a :: as, b :: bs => a == b && listIsPfx as bs

/-- `listHasSub sub l` holds when `sub` occurs contiguously inside `l`. -/
def listHasSub (sub : List Char) : List Char → Bool
  | [] => listIsPfx sub []
  | a :: as => listIsPfx sub (a :: as) || listHasSub sub as

/-- `jsIncludes s sub` models `s.includes(sub)`. -/
def jsIncludes (s sub : String) : Bool := listHasSub sub.data s.data

/-- `jsTrim` models `String.prototype.trim`. -/
def jsTrim (s : String) : String :=
  String.mk (((s.data.dropWhile Char.isWhitespace).reverse.dropWhile
    Char.isWhitespace).reverse)

/-- Sort key of `fetchCustomers`: the customer's name, missing treated as
`''`, lowercased (`(a.name || '').toLowerCase()`). -/
def custKey (c : Customer) : List Char := (jsToLower (c.name.getD "")).data

/-- The comparator of `customersData.sort`: non-decreasing lowercased name. -/
def custRel (a b : Customer) : Prop := custKey a ≤ custKey b

instance : DecidableRel custRel :=
  fun a b => inferInstanceAs (Decidable (custKey a ≤ custKey b))

instance : IsTotal Customer custRel := ⟨fun a b => le_total (custKey a) (custKey b)⟩

instance : IsTrans Customer custRel := ⟨fun _ _ _ h1 h2 => le_trans h1 h2⟩

/-- The client-side sort in `fetchCustomers` (a stable sort by `custRel`). -/
def sortCustomers (l : List Customer) : List Customer := List.insertionSort custRel l

/-- `fetchCustomers`: returns early (no query) when `activeShopId` is falsy;
otherwise queries `customers` with `where('shopId', '==', activeShopId)` and
sorts by lowercased name.  `none` = no fetch happened. -/
def fetchCustomers (dbC : List Customer) : Option String → Option (List Customer)
  | none => none
  | some sid =>
    if sid = "" then none
    else some (sortCustomers (dbC.filter (fun c => c.shopId == some sid)))

/-- `fetchLoans`: returns early when `activeShopId` is falsy; otherwise
queries `customerLoans` with `where('shopId', '==', activeShopId)`. -/
def fetchLoans (dbL : List Loan) : Option String → Option (List Loan)
  | none => none
  | some sid =>
    if sid = "" then none
    else some (dbL.filter (fun l => l.shopId == some sid))

/-- `customer.name?.toLowerCase().includes(searchTerm.toLowerCase())`. -/
def nameMatches (c : Customer) (t : String) : Bool :=
  match c.name with
  | none => false
  | some n => jsIncludes (jsToLower n) (jsToLower t)

/-- `customer.phone?.includes(searchTerm)` (note: the raw term). -/
def phoneMatches (c : Customer) (t : String) : Bool :=
  match c.phone with
  | none => false
  | some p => jsIncludes p t

/-- `customer.email?.toLowerCase().includes(searchTerm.toLowerCase())`. -/
def emailMatches (c : Customer) (t : String) : Bool :=
  match c.email with
  | none => false
  | some e => jsIncludes (jsToLower e) (jsToLower t)

/-- The predicate of the `filteredCustomers` filter. -/
def matchesSearch (c : Customer) (t : String) : Bool :=
  nameMatches c t || phoneMatches c t || emailMatches c t

/-- `filteredCustomers = customers.filter(...)`: the customers rendered in
the table. -/
def filteredCustomers (customers : List Customer) (t : String) : List Customer :=
  customers.filter (fun c => matchesSearch c t)

/-- The `Total Customers` metric: `customers.length`. -/
def totalCustomers (customers : List Customer) : Nat := customers.length

/-- The loan-badge filter: `loans.filter(l => (l.customerName || '').toLowerCase()
=== (customer.name || '').toLowerCase())`. -/
def custLoans (loans : List Loan) (c : Customer) : List Loan :=
  loans.filter (fun l =>
    jsToLower (l.customerName.getD "") == jsToLower (c.name.getD ""))

/-- `parseFloat(l.amount) || 0`. -/
def parsedAmount (l : Loan) : ℚ := l.amount.getD 0

/-- The loan badge count: `custLoans.length`. -/
def loanCount (loans : List Loan) (c : Customer) : Nat := (custLoans loans c).length

/-- The loan badge total: `custLoans.reduce((s, l) => s + (parseFloat(l.amount)
|| 0), 0)`. -/
def loanTotal (loans : List Loan) (c : Customer) : ℚ :=
  (custLoans loans c).foldl (fun s l => s + parsedAmount l) 0

/-- The status cell of the loan-history table: `loan.status || 'outstanding'`. -/
def displayedStatus (l : Loan) : String :=
  match l.status with
  | none => "outstanding"
  | some s => if s = "" then "outstanding" else s

/-- Outcome of one `handleSubmit` run: a validation error with the banner
message it sets, or the single write it issues. -/
inductive SubmitResult where
  | failure (msg : String)
  | create (data : CustomerData)
  | update (id : String) (data : CustomerData)
deriving DecidableEq

/-- `handleSubmit`: name validation, then shop-id validation, then builds
`customerData` and issues `updateDoc` (when editing) or `addDoc`. -/
def handleSubmit (form : FormData) (activeShopId : Option String)
    (editing : Option Customer) (now : Nat) : SubmitResult :=
  if jsTrim form.name = "" then .failure "Customer name is required"
  else if strTruthy activeShopId = false then .failure "Shop ID is missing"
  else
    let data : CustomerData :=
      { name := form.name, phone := form.phone, email := form.email
        address := form.address, city := form.city, notes := form.notes
        shopId := activeShopId.getD ""
        createdAt := match editing with
          | some c => c.createdAt
          | none => some now
        updatedAt := now }
    match editing with
    | some c => .update c.id data
    | none => .create data

/-- The document `handleSubmit` writes, if any. -/
def submitData (form : FormData) (activeShopId : Option String)
    (editing : Option Customer) (now : Nat) : Option CustomerData :=
  match handleSubmit form activeShopId editing now with
  | .failure _ => none
  | .create d => some d
  | .update _ d => some d

/-- What a `catch` block does: whether it logs (`console.error`) and which
banner error message (`setError`) it sets, if any.  Both banners rendered by
the component (`error`, `success`) are dismissible `Alert`s. -/
structure ErrorEffect where
  logged : Bool
  bannerError : Option String
deriving DecidableEq

/-- The `catch` of `fetchCustomers`: logs and sets a banner error. -/
def fetchCustomersOnError : ErrorEffect :=
  { logged := true, bannerError := some "Failed to load customers" }

/-- The `catch` of `fetchLoans`: logs only; it sets no banner error. -/
def fetchLoansOnError : ErrorEffect :=
  { logged := true, bannerError := none }

/-- The `catch` of `handleSubmit`, given the thrown error's message. -/
def saveCustomerOnError (m : String) : ErrorEffect :=
  { logged := true, bannerError := some ("Failed to save customer: " ++ m) }

/-- The `catch` of `confirmDelete`, given the thrown error's message. -/
def deleteCustomerOnError (m : String) : ErrorEffect :=
  { logged := true, bannerError := some ("Failed to delete customer: " ++ m) }

/-! Spec-side definitions, written from the spec/claim wording, to be compared
with the code-side definitions above. -/

/-- Spec wording of the loan-aggregation match: the loan's `customerName`
equals the customer's name under case-insensitive comparison, missing names
treated as empty strings. -/
def specLoanMatches (c : Customer) (l : Loan) : Bool :=
  jsToLower (l.customerName.getD "") == jsToLower (c.name.getD "")

/-- Spec wording of the loan badge count: the number of matching loans. -/
def specLoanCount (loans : List Loan) (c : Customer) : Nat :=
  loans.countP (specLoanMatches c)

/-- Spec wording of the loan badge total: the sum over matching loans of the
parsed amount, non-numeric amounts contributing zero. -/
def specLoanTotal (loans : List Loan) (c : Customer) : ℚ :=
  ((loans.filter (specLoanMatches c)).map parsedAmount).sum

/-- The search-match condition exactly as the claim words it: the lowercased
term is a substring of the lowercased name, of the phone, or of the lowercased
email (missing fields read as empty strings). -/
def claimMatches (c : Customer) (t : String) : Bool :=
  jsIncludes (jsToLower (c.name.getD "")) (jsToLower t) ||
  jsIncludes (c.phone.getD "") (jsToLower t) ||
  jsIncludes (jsToLower (c.email.getD "")) (jsToLower t)

/-- The amended search-match condition: lowercased term against lowercased
name and email, but the raw term against the phone; a missing field never
matches. -/
def specSearchMatches (c : Customer) (t : String) : Bool :=
  (match c.name with
    | none => false
    | some n => jsIncludes (jsToLower n) (jsToLower t)) ||
  (match c.phone with
    | none => false
    | some p => jsIncludes p t) ||
  (match c.email with
    | none => false
    | some e => jsIncludes (jsToLower e) (jsToLower t))

/-! Concrete records used to instantiate the theorems below. -/

/-- A customer whose phone is the single letter `A`. -/
def wc4 : Customer :=
  ⟨"1", some "s1", some "x", some "A", none, none, none, none, none, none⟩

/-- A customer whose phone is the single letter `a`. -/
def wc5 : Customer :=
  ⟨"1", some "s1", some "x", some "a", some "x", none, none, none, none, none⟩

/-- A customer of shop `s1` named `B`. -/
def wc5A : Customer :=
  ⟨"a", some "s1", some "B", none, none, none, none, none, none, none⟩

/-- A customer of shop `s1` named `a`. -/
def wc5B : Customer :=
  ⟨"b", some "s1", some "a", none, none, none, none, none, none, none⟩

/-- A customer of shop `s2`. -/
def wc2O : Customer :=
  ⟨"o", some "s2", some "z", none, none, none, none, none, none, none⟩

/-- A customer with name, phone, and email all missing. -/
def wc9 : Customer :=
  ⟨"n", some "s1", none, none, none, none, none, none, none, none⟩

/-- A stored customer being edited, with creation instant `3`. -/
def wcEdit : Customer :=
  ⟨"id9", some "s1", some "Bob", none, none, none, none, none, some 3, some 4⟩

/-- A loan of shop `s1` for customer name `BOB`, amount `5`. -/
def wl1 : Loan := ⟨"l1", some "s1", some "BOB", some 5, none, none, none, none⟩

/-- A loan with no stored status. -/
def wl8a : Loan := ⟨"l8a", some "s1", some "x", none, none, none, none, none⟩

/-- A loan with stored status `paid`. -/
def wl8b : Loan := ⟨"l8b", some "s1", some "x", none, none, none, none, some "paid"⟩

/-- A fully empty form. -/
def wf0 : FormData := ⟨"", "", "", "", "", ""⟩

/-- A filled-in form with a non-empty name. -/
def wf1 : FormData := ⟨"Ali", "0300", "a@b.c", "addr", "city", "memo"⟩

/-- The document `handleSubmit` builds from `wf1` on a create at instant `5`. -/
def wd1 : CustomerData :=
  ⟨"Ali", "0300", "a@b.c", "addr", "city", "memo", "s1", some 5, 5⟩

/-- The document `handleSubmit` builds from `wf1` on an update of `wcEdit`
at instant `7`. -/
def wd1u : CustomerData :=
  ⟨"Ali", "0300", "a@b.c", "addr", "city", "memo", "s1", some 3, 7⟩

/-! Helper lemmas shared by the claim theorems. -/

lemma mem_sortCustomers {c : Customer} {l : List Customer} :
    c ∈ sortCustomers l ↔ c ∈ l :=
  (List.perm_insertionSort custRel l).mem_iff

lemma foldl_add_eq_sum (f : Loan → ℚ) (l : List Loan) :
    ∀ s : ℚ, l.foldl (fun a x => a + f x) s = s + (l.map f).sum := by
  induction l with
  | nil => intro s; simp
  | cons x xs ih => intro s; simp [ih (s + f x), add_assoc]

lemma submitData_eq (form : FormData) (sid : Option String)
    (editing : Option Customer) (now : Nat) :
    submitData form sid editing now =
      if jsTrim form.name = "" then none
      else if strTruthy sid = false then none
      else some ⟨form.name, form.phone, form.email, form.address, form.city,
        form.notes, sid.getD "",
        (match editing with | some c => c.createdAt | none => some now), now⟩ := by
  cases editing <;> (unfold submitData handleSubmit; split_ifs <;> rfl)

end CustomerInfo

namespace CustomerInfo

/-- C1: the loan summary for a customer counts exactly the loans whose
`customerName` equals the customer's name case-insensitively (missing names as
empty strings), and its total is the sum of the parsed amounts of those loans,
non-numeric amounts contributing zero. -/
theorem loan_summary_correct (loans : List Loan) (c : Customer) :
    loanCount loans c = specLoanCount loans c ∧
    loanTotal loans c = specLoanTotal loans c := by
  have hfil : custLoans loans c = loans.filter (specLoanMatches c) := rfl
  constructor
  · rw [loanCount, hfil, specLoanCount, List.countP_eq_length_filter]
  · rw [loanTotal, specLoanTotal, foldl_add_eq_sum parsedAmount, hfil, zero_add]

/-- C2: every customer read and every loan read is scoped to the active shop
(each fetched record carries `shopId` equal to the active shop identifier), and
every customer document written by create or update carries `shopId` equal to
the active shop identifier.  The delete operation targets a customer taken
from the fetched list, so the first conjunct also scopes it. -/
theorem shop_scoping (dbC : List Customer) (dbL : List Loan) (s : String)
    (lC : List Customer) (lL : List Loan) (c : Customer) (l : Loan)
    (form : FormData) (editing : Option Customer) (now : Nat) (d : CustomerData) :
    (fetchCustomers dbC (some s) = some lC → c ∈ lC → c.shopId = some s) ∧
    (fetchLoans dbL (some s) = some lL → l ∈ lL → l.shopId = some s) ∧
    (submitData form (some s) editing now = some d → d.shopId = s) := by
  refine ⟨?_, ?_, ?_⟩
  · intro hf hm
    simp only [fetchCustomers] at hf
    split at hf
    · exact absurd hf (by simp)
    · rw [Option.some.injEq] at hf
      subst hf
      rw [mem_sortCustomers] at hm
      have := (List.mem_filter.mp hm).2
      exact eq_of_beq this
  · intro hf hm
    simp only [fetchLoans] at hf
    split at hf
    · exact absurd hf (by simp)
    · rw [Option.some.injEq] at hf
      subst hf
      exact eq_of_beq (List.mem_filter.mp hm).2
  · intro hw
    rw [submitData_eq] at hw
    split_ifs at hw
    rw [Option.some.injEq] at hw
    subst hw
    rfl

/-- C2 witness at concrete shop `s1`: a fetched customer and a fetched loan
carry `shopId = s1`, and a created document carries `shopId = s1`. -/
theorem shop_scoping_witness :
    (fetchCustomers [wc5A, wc2O] (some "s1") = some [wc5A] ∧
      wc5A.shopId = some "s1") ∧
    (fetchLoans [wl1] (some "s1") = some [wl1] ∧ wl1.shopId = some "s1") ∧
    (submitData wf1 (some "s1") none 5 = some wd1 ∧ wd1.shopId = "s1") :=
  ⟨⟨by decide, (shop_scoping [wc5A, wc2O] [wl1] "s1" [wc5A] [wl1] wc5A wl1 wf1
      none 5 wd1).1 (by decide) (by decide)⟩,
   ⟨by decide, (shop_scoping [wc5A, wc2O] [wl1] "s1" [wc5A] [wl1] wc5A wl1 wf1
      none 5 wd1).2.1 (by decide) (by decide)⟩,
   ⟨by decide, (shop_scoping [wc5A, wc2O] [wl1] "s1" [wc5A] [wl1] wc5A wl1 wf1
      none 5 wd1).2.2 (by decide)⟩⟩

/-- C3 counterexample: the loan-fetch failure handler sets no banner error, so
not every data-operation failure is surfaced to the user as a banner. -/
theorem loans_error_not_surfaced : fetchLoansOnError.bannerError = none := rfl

/-- C3 (amended): failures of fetching customers, saving a customer, and
deleting a customer are logged and surfaced as a banner error message; a
failure of fetching loans is logged but sets no banner message. -/
theorem error_effects :
    (fetchCustomersOnError.logged = true ∧
      fetchCustomersOnError.bannerError = some "Failed to load customers") ∧
    (fetchLoansOnError.logged = true ∧ fetchLoansOnError.bannerError = none) ∧
    (∀ m, (saveCustomerOnError m).logged = true ∧
      (saveCustomerOnError m).bannerError =
        some ("Failed to save customer: " ++ m)) ∧
    (∀ m, (deleteCustomerOnError m).logged = true ∧
      (deleteCustomerOnError m).bannerError =
        some ("Failed to delete customer: " ++ m)) :=
  ⟨⟨rfl, rfl⟩, ⟨rfl, rfl⟩, fun _ => ⟨rfl, rfl⟩, fun _ => ⟨rfl, rfl⟩⟩

/-- C4 counterexample: the full search filter is not case-insensitive — the
terms `A` and `a` have the same lowercasing yet select different customer
lists, because the phone field is matched against the raw term. -/
theorem search_case_counterexample :
    jsToLower "A" = jsToLower "a" ∧
    filteredCustomers [wc4] "A" ≠ filteredCustomers [wc4] "a" := by decide

/-- C4 (amended): the name match and the email match are case-insensitive in
the search term — any two terms with the same lowercasing match the same
customers on name and on email; the phone match uses the raw term. -/
theorem search_name_email_case_insensitive (c : Customer) (t u : String)
    (h : jsToLower t = jsToLower u) :
    nameMatches c t = nameMatches c u ∧ emailMatches c t = emailMatches c u := by
  unfold nameMatches emailMatches
  rw [h]
  exact ⟨rfl, rfl⟩

/-- C4 witness at the terms `A` and `a` and customer `wc4`. -/
theorem search_name_email_case_insensitive_witness :
    jsToLower "A" = jsToLower "a" ∧
    (nameMatches wc4 "A" = nameMatches wc4 "a" ∧
      emailMatches wc4 "A" = emailMatches wc4 "a") :=
  ⟨by decide, search_name_email_case_insensitive wc4 "A" "a" (by decide)⟩

/-- C5 counterexample: the claim's match condition (lowercased term against
the phone) disagrees with the code — for the customer `wc5` (phone `a`) and
term `A` the claim says match, the code excludes the customer. -/
theorem search_match_counterexample :
    claimMatches wc5 "A" = true ∧ matchesSearch wc5 "A" = false ∧
    filteredCustomers [wc5] "A" = [] := by decide

/-- C5 (amended): after a successful fetch the held list is sorted in
non-decreasing order of lowercased names (missing name as empty string), and a
customer matches the search term exactly when its name is present and the
lowercased term is a substring of the lowercased name, or its phone is present
and the raw (un-lowercased) term is a substring of the phone, or its email is
present and the lowercased term is a substring of the lowercased email. -/
theorem fetch_sorted_and_search_characterization (dbC : List Customer)
    (s : String) (lC : List Customer) (h : fetchCustomers dbC (some s) = some lC) :
    lC.Pairwise custRel ∧ ∀ c t, matchesSearch c t = specSearchMatches c t := by
  constructor
  · simp only [fetchCustomers] at h
    split at h
    · exact absurd h (by simp)
    · rw [Option.some.injEq] at h
      subst h
      exact List.sorted_insertionSort custRel _
  · intro c t
    unfold matchesSearch specSearchMatches nameMatches phoneMatches emailMatches
    rfl

/-- C5 witness: a concrete fetch whose result is sorted by lowercased name,
and the match characterization evaluated at a concrete customer and term. -/
theorem fetch_sorted_witness :
    fetchCustomers [wc5A, wc5B] (some "s1") = some [wc5B, wc5A] ∧
    List.Pairwise custRel [wc5B, wc5A] ∧
    matchesSearch wc5 "A" = specSearchMatches wc5 "A" :=
  ⟨by decide,
   (fetch_sorted_and_search_characterization [wc5A, wc5B] "s1" [wc5B, wc5A]
      (by decide)).1,
   (fetch_sorted_and_search_characterization [wc5A, wc5B] "s1" [wc5B, wc5A]
      (by decide)).2 wc5 "A"⟩

/-- C6: with a truthy active shop identifier, a submission is rejected (no
create and no update issued) exactly when the trimmed name is empty, in which
case the error set is `Customer name is required`; any form with a non-empty
trimmed name is persisted, so name non-emptiness is the only field
validation. -/
theorem name_validation (form : FormData) (sid : Option String)
    (editing : Option Customer) (now : Nat) (h : strTruthy sid = true) :
    (submitData form sid editing now = none ↔ jsTrim form.name = "") ∧
    (jsTrim form.name = "" →
      handleSubmit form sid editing now = .failure "Customer name is required") := by
  constructor
  · rw [submitData_eq]
    split_ifs with h1 h2
    · simp [h1]
    · rw [h2] at h; exact absurd h (by simp)
    · simp [h1]
  · intro hn
    cases editing <;> simp [handleSubmit, hn]

/-- C6 witness: with shop `s1`, the empty form is rejected with the name
error, and `wf1` (non-empty name) is not rejected. -/
theorem name_validation_witness :
    strTruthy (some "s1") = true ∧
    ((submitData wf0 (some "s1") none 0 = none ↔ jsTrim wf0.name = "") ∧
      (jsTrim wf0.name = "" →
        handleSubmit wf0 (some "s1") none 0 = .failure "Customer name is required")) ∧
    ((submitData wf1 (some "s1") none 0 = none ↔ jsTrim wf1.name = "") ∧
      (jsTrim wf1.name = "" →
        handleSubmit wf1 (some "s1") none 0 = .failure "Customer name is required")) :=
  ⟨by decide, name_validation wf0 (some "s1") none 0 (by decide),
   name_validation wf1 (some "s1") none 0 (by decide)⟩

/-- C7: every written document's `updatedAt` is the current instant; a create
stamps the current instant as `createdAt`, while an update writes back the
edited customer's stored `createdAt` unchanged. -/
theorem save_timestamps (form : FormData) (sid : Option String)
    (editing : Option Customer) (now : Nat) (d : CustomerData) :
    (submitData form sid editing now = some d → d.updatedAt = now) ∧
    (submitData form sid none now = some d → d.createdAt = some now) ∧
    (∀ c, submitData form sid (some c) now = some d → d.createdAt = c.createdAt) := by
  refine ⟨?_, ?_, fun c => ?_⟩ <;>
    · intro hw
      rw [submitData_eq] at hw
      split_ifs at hw
      rw [Option.some.injEq] at hw
      subst hw
      rfl

/-- C7 witness: a concrete create at instant `5` stamps `createdAt = 5` and
`updatedAt = 5`; a concrete update of `wcEdit` at instant `7` keeps its stored
`createdAt = 3`. -/
theorem save_timestamps_witness :
    (submitData wf1 (some "s1") none 5 = some wd1 ∧
      wd1.updatedAt = 5 ∧ wd1.createdAt = some 5) ∧
    (submitData wf1 (some "s1") (some wcEdit) 7 = some wd1u ∧
      wd1u.createdAt = wcEdit.createdAt) :=
  ⟨⟨by decide, (save_timestamps wf1 (some "s1") none 5 wd1).1 (by decide),
    (save_timestamps wf1 (some "s1") none 5 wd1).2.1 (by decide)⟩,
   ⟨by decide,
    (save_timestamps wf1 (some "s1") (some wcEdit) 7 wd1u).2.2 wcEdit (by decide)⟩⟩

/-- C8: a loan whose stored status is absent or empty displays as
`outstanding`; otherwise the stored status is displayed unchanged. -/
theorem loan_status_display (l : Loan) :
    ((l.status = none ∨ l.status = some "") → displayedStatus l = "outstanding") ∧
    (∀ s, s ≠ "" → l.status = some s → displayedStatus l = s) := by
  constructor
  · rintro (h | h) <;> simp [displayedStatus, h]
  · intro s hs h
    simp [displayedStatus, h, hs]

/-- C8 witness: a loan without a status displays `outstanding`; a loan with
status `paid` displays `paid`. -/
theorem loan_status_display_witness :
    displayedStatus wl8a = "outstanding" ∧ displayedStatus wl8b = "paid" :=
  ⟨(loan_status_display wl8a).1 (Or.inl rfl),
   (loan_status_display wl8b).2 "paid" (by decide) rfl⟩

/-- C9: a customer whose name, phone, and email are all missing never matches
the search filter — not even for the empty term — so it is never rendered in
the table, while the total-customers metric still counts every list entry. -/
theorem all_fields_missing_hidden (c : Customer) (hn : c.name = none)
    (hp : c.phone = none) (he : c.email = none) (customers : List Customer)
    (t : String) :
    c ∉ filteredCustomers customers t ∧
    totalCustomers customers = customers.length := by
  constructor
  · intro hmem
    have := (List.mem_filter.mp hmem).2
    simp [matchesSearch, nameMatches, phoneMatches, emailMatches, hn, hp, he] at this
  · rfl

/-- C9 witness: the field-less customer `wc9` is dropped by the empty search
while the total counts it. -/
theorem all_fields_missing_hidden_witness :
    wc9 ∉ filteredCustomers [wc9] "" ∧ totalCustomers [wc9] = [wc9].length :=
  all_fields_missing_hidden wc9 rfl rfl rfl [wc9] ""

/-- C10 counterexample: a submission with an empty name while the shop
identifier is absent sets `Customer name is required`, not
`Shop ID is missing` — the name check runs first. -/
theorem missing_shop_message_counterexample :
    handleSubmit wf0 none none 0 = .failure "Customer name is required" ∧
    SubmitResult.failure "Customer name is required" ≠
      SubmitResult.failure "Shop ID is missing" := by decide

/-- C10 (amended): when the active shop identifier is absent, no create and no
update is ever issued; if moreover the trimmed name is non-empty, the error
set is `Shop ID is missing`, before any customer document is built. -/
theorem missing_shop_blocks_save (form : FormData) (editing : Option Customer)
    (now : Nat) :
    (jsTrim form.name ≠ "" →
      handleSubmit form none editing now = .failure "Shop ID is missing") ∧
    submitData form none editing now = none := by
  constructor
  · intro hn
    cases editing <;> simp [handleSubmit, hn, strTruthy]
  · rw [submitData_eq]
    split_ifs with h1 h2
    · rfl
    · rfl
    · exact absurd rfl h2

/-- C10 witness: submitting `wf1` (non-empty name) with no shop identifier
sets `Shop ID is missing` and writes nothing. -/
theorem missing_shop_blocks_save_witness :
    jsTrim wf1.name ≠ "" ∧
    handleSubmit wf1 none none 0 = .failure "Shop ID is missing" ∧
    submitData wf1 none none 0 = none :=
  ⟨by decide, (missing_shop_blocks_save wf1 none 0).1 (by decide),
   (missing_shop_blocks_save wf1 none 0).2⟩

end CustomerInfo
